import Mathlib

/-!
Shallow embedding of the gateway service of this repository
(src/gateway/src/gateway.js): the proxy forwarder `proxyRequest`, the
route table, and the health endpoint.  Pure data is modelled with
explicit lists; the outcome of the single outbound HTTP call is an
explicit parameter of the request handler.
-/

namespace Gateway

/-- JSON values as produced by the express JSON body parser and by the
axios response transform (parsed bodies).  Numbers are modelled as
integers; none of the verified properties depends on numeric width. -/
inductive Json where
  | null : Json
  | bool (b : Bool) : Json
  | num (n : Int) : Json
  | str (s : String) : Json
  | arr (xs : List Json) : Json
  | obj (fields : List (String × Json)) : Json

/-- Field access on a JSON object, mirroring JavaScript property lookup:
`none` when the value is not an object or the key is absent. -/
def Json.lookupField : Json → String → Option Json
  | .obj fields, k => (fields.find? (fun p => p.1 == k)).map Prod.snd
  | _, _ => none

/-- Body written back to the client.  `jsonEncoded v` is what
`res.json(v)` produces (the value re-serialized as JSON text);
`raw` stands for a byte-for-byte streamed body, which the gateway
never produces but which the type keeps representable so that
"re-encoded, not streamed" is a non-trivial statement. -/
inductive ClientBody where
  | jsonEncoded (v : Json) : ClientBody
  | raw (bytes : String) : ClientBody

/-- One complete response written to the client: status code, the
headers the handler set explicitly, and the body. -/
structure ClientResponse where
  status : Nat
  headers : List (String × String)
  body : ClientBody

/-- A backend HTTP response as axios delivers it: status, header map
(keys lowercased by axios), and the parsed body. -/
structure BackendResponse where
  status : Nat
  headers : List (String × String)
  data : Json

/-- An error object as caught by the `catch` block of `proxyRequest`:
whether `axios.isAxiosError` holds, its `code` field, its optional
attached `response`, and its `message` (the handler logs the message
but never branches on it). -/
structure CaughtError where
  isAxiosError : Bool
  code : Option String
  response : Option BackendResponse
  message : String

/-- The inbound express request, with the fields `proxyRequest` and the
route table read: `url` is the original URL (path plus any query
string), `pathname` the path component used for routing, `query` the
parsed query parameters, `headers` the inbound header map (keys
lowercased by node), `body` the JSON object parsed by `express.json()`
(the empty list when no body was sent), and the client address fields
backing `req.ip`, `req.connection.remoteAddress` and
`req.socket.remoteAddress`. -/
structure InboundRequest where
  method : String
  url : String
  pathname : String
  query : List (String × String)
  headers : List (String × String)
  body : List (String × Json)
  ip : Option String
  connectionRemoteAddress : Option String
  socketRemoteAddress : Option String
  protocol : String

/-- First-match lookup in a header list, mirroring JavaScript object
indexing `headers[k]`. -/
def lookupHeader (k : String) (hs : List (String × String)) : Option String :=
  (hs.find? (fun p => p.1 == k)).map Prod.snd

/-- JavaScript a-or-b (the logical-or operator) on possibly-absent
strings: the empty string is falsy, so it also falls through to the
second operand. -/
def jsOr (a b : Option String) : Option String :=
  match a with
  | some s => if s == "" then b else some s
  | none => b

/-- JavaScript logical-or against a present default string, as used
for the content-type default on line 37: an absent or empty first
operand falls through to the default. -/
def jsOrStr (a : Option String) (b : String) : String :=
  match a with
  | some s => if s == "" then b else s
  | none => b

/-- The backend base URL, `process.env.BACKEND_URL || defaultUrl`
(line 8); the verified properties do not depend on its value, so the
default is used. -/
def backendUrl : String := "http://backend:3847"

/-- Client address resolution of line 41:
`req.ip || req.connection.remoteAddress || req.socket.remoteAddress`. -/
def clientAddr (req : InboundRequest) : Option String :=
  jsOr req.ip (jsOr req.connectionRemoteAddress req.socketRemoteAddress)

/-- The outbound `Content-Type` decision of lines 36-38: set only when
the parsed body is a non-empty object, valued as the inbound
content type defaulting to application/json. -/
def contentTypeOut (req : InboundRequest) : Option String :=
  if req.body.isEmpty then none
  else some (jsOrStr (lookupHeader "content-type" req.headers) "application/json")

/-- The header object built for the outbound call (lines 33-42).  When
no client address is known at all, the JavaScript stores `undefined`
under X-Forwarded-For and axios omits the header from the wire
request; that unreachable-in-express corner is modelled as the
header being absent. -/
def outboundHeaders (req : InboundRequest) : List (String × String) :=
  (match contentTypeOut req with
   | some v => [("Content-Type", v)]
   | none => []) ++
  (match clientAddr req with
   | some a => [("X-Forwarded-For", a)]
   | none => []) ++
  [("X-Forwarded-Proto", req.protocol)]

/-- The axios request configuration object passed on lines 45-55. -/
structure AxiosConfig where
  method : String
  url : String
  params : List (String × String)
  data : List (String × Json)
  headers : List (String × String)
  timeout : Nat
  validateStatus : Nat → Bool
  maxContentLength : Nat
  maxBodyLength : Nat

/-- The configuration `proxyRequest` builds for its single outbound
call (lines 26-27 and 45-55): target URL is the backend base URL
concatenated with the original URL, the parsed query is passed again
as `params`, and `validateStatus` accepts every status. -/
def axiosConfig (req : InboundRequest) : AxiosConfig :=
  { method := req.method
    url := backendUrl ++ req.url
    params := req.query
    data := req.body
    headers := outboundHeaders req
    timeout := 30000
    validateStatus := fun _ => true
    maxContentLength := 50 * 1024 * 1024
    maxBodyLength := 50 * 1024 * 1024 }

/-- Serialization of a parameter list to a query string, as axios
`buildURL` does (URL-encoding of the individual characters is not
modelled; no verified property depends on it). -/
def serializeParams (ps : List (String × String)) : String :=
  String.intercalate "&" (ps.map fun p => p.1 ++ "=" ++ p.2)

/-- Whether a URL string already carries a query part, i.e. contains
the question-mark character (axios checks `url.indexOf` of it). -/
def hasQueryMark (s : String) : Bool :=
  s.data.contains '?'

/-- Modelled from axios `buildURL` (external collaborator, not part of
this repository): when `params` is non-empty its serialization is
appended to the URL, after `&` when the URL already has a query part
and after `?` otherwise. -/
def effectiveUrl (c : AxiosConfig) : String :=
  if c.params.isEmpty then c.url
  else c.url ++ (if hasQueryMark c.url then "&" else "?") ++ serializeParams c.params

/-- Synthesized 503 body of lines 86-89. -/
def unavailableBody : Json :=
  .obj [("error", .str "Backend service unavailable"),
        ("message", .str "The backend service is currently unavailable. Please try again later.")]

/-- The 503 response of the connection-refused branch. -/
def resp503 : ClientResponse :=
  { status := 503, headers := [], body := .jsonEncoded unavailableBody }

/-- Synthesized 504 body of lines 93-96. -/
def timeoutBody : Json :=
  .obj [("error", .str "Backend service timeout"),
        ("message", .str "The backend service did not respond in time. Please try again later.")]

/-- The 504 response of the timeout branch. -/
def resp504 : ClientResponse :=
  { status := 504, headers := [], body := .jsonEncoded timeoutBody }

/-- Synthesized 502 body of lines 107-110. -/
def badGatewayBody : Json :=
  .obj [("error", .str "Bad Gateway"),
        ("message", .str "Failed to proxy request to backend service")]

/-- The 502 response of the generic fallback branch. -/
def resp502 : ClientResponse :=
  { status := 502, headers := [], body := .jsonEncoded badGatewayBody }

/-- The relay branch of lines 98-102: the upstream response attached to
the error is written back, status and data, with no extra headers. -/
def relayResponse (r : BackendResponse) : ClientResponse :=
  { status := r.status, headers := [], body := .jsonEncoded r.data }

/-- The catch block of `proxyRequest` (lines 74-112), as a function of
the caught error and of `res.headersSent` at catch time.  `some w`
means one response `w` is written; `none` means no write is
attempted.  The branch order is the source order: axios-error with
code ECONNREFUSED, then codes ETIMEDOUT or ECONNABORTED, then an
attached upstream response, then the guarded generic 502. -/
def handleError (e : CaughtError) (headersSent : Bool) : Option ClientResponse :=
  if e.isAxiosError then
    if e.code = some "ECONNREFUSED" then
      some resp503
    else if e.code = some "ETIMEDOUT" ∨ e.code = some "ECONNABORTED" then
      some resp504
    else
      match e.response with
      | some r => some (relayResponse r)
      | none => if headersSent then none else some resp502
  else if headersSent then none else some resp502

/-- Header relay of lines 64-70: of the backend response headers,
exactly content-type and content-length are copied when present (a
JavaScript truthiness test, so an empty-string value is skipped). -/
def relayHeaders (hs : List (String × String)) : List (String × String) :=
  ["content-type", "content-length"].filterMap fun k =>
    match lookupHeader k hs with
    | some v => if v == "" then none else some (k, v)
    | none => none

/-- The success path of lines 62-73: same status as the backend,
the two relayed headers, and the backend data re-serialized by
`res.json`. -/
def successResponse (r : BackendResponse) : ClientResponse :=
  { status := r.status, headers := relayHeaders r.headers, body := .jsonEncoded r.data }

/-- A plain (non-axios) error with a given message, as raised by the
response-writing path itself. -/
def plainError (msg : String) : CaughtError :=
  { isAxiosError := false, code := none, response := none, message := msg }

/-- How one execution of the `try` block of `proxyRequest` ends.
`success` is the normal path; `callFailed` is a rejection of the
awaited axios call, which happens before any response write, so
`res.headersSent` is false when it is caught; `writeFailed` is an
error raised by the response-writing path after the backend
answered — such an error is never an axios transport error, and
`sent` records whether the success response had already gone out
when it was raised. -/
inductive TryResult where
  | success (r : BackendResponse) : TryResult
  | callFailed (e : CaughtError) : TryResult
  | writeFailed (r : BackendResponse) (msg : String) (sent : Bool) : TryResult

/-- All responses one run of `proxyRequest` writes to the client, in
order, for a given try-block outcome. -/
def proxyWrites (t : TryResult) : List ClientResponse :=
  match t with
  | .success r => [successResponse r]
  | .callFailed e => (handleError e false).toList
  | .writeFailed r msg sent =>
      (if sent then [successResponse r] else []) ++ (handleError (plainError msg) sent).toList

/-- Where the express app dispatches a request. -/
inductive RouteTarget where
  | proxy : RouteTarget
  | health : RouteTarget
  | notFound : RouteTarget
  deriving DecidableEq

/-- Modelled from express 4 route matching (external collaborator): the
pattern of line 116 compiles via path-to-regexp 0.1.7 to the
case-insensitive regular expression `^/api/(.*)/?$`, which matches
exactly the paths whose lowercased form begins with `/api/`
(the wildcard may match the empty string). -/
def apiRouteMatches (pathname : String) : Bool :=
  List.isPrefixOf "/api/".data (pathname.data.map Char.toLower)

/-- The route table of lines 116-125: `app.all` on the API pattern (any
method), then `app.get` on /health, else the express default 404. -/
def route (method : String) (pathname : String) : RouteTarget :=
  if apiRouteMatches pathname then .proxy
  else if method == "GET" && pathname == "/health" then .health
  else .notFound

/-- The static health payload of lines 119-125, as a function of the
current timestamp string. -/
def healthBody (now : String) : Json :=
  .obj [("status", .str "ok"), ("timestamp", .str now), ("service", .str "gateway")]

/-- The health endpoint's response: `res.json` with the default 200
status. -/
def healthResponse (now : String) : ClientResponse :=
  { status := 200, headers := [], body := .jsonEncoded (healthBody now) }

/-- The express default handler for unmatched routes. -/
def expressDefault404 : ClientResponse :=
  { status := 404, headers := [], body := .raw "Cannot GET" }

/-- One request through the whole app: dispatch by the route table;
only the proxy target consults the outcome of the outbound call. -/
def handleRequest (req : InboundRequest) (t : TryResult) (now : String) : List ClientResponse :=
  match route req.method req.pathname with
  | .proxy => proxyWrites t
  | .health => [healthResponse now]
  | .notFound => [expressDefault404]

/-- Split of a character list at every occurrence of a separator
character, used to read a query string back out of a URL. -/
def splitChar (c : Char) : List Char → List (List Char)
  | [] => [[]]
  | a :: rest =>
      match splitChar c rest with
      | [] => if a == c then [[], []] else [[a]]
      | x :: xs => if a == c then [] :: x :: xs else (a :: x) :: xs

/-- The key=value pairs of the query part of a URL: everything after
the first question mark, split at ampersands. -/
def queryPairsOf (u : String) : List String :=
  match splitChar '?' u.data with
  | [] => []
  | [_] => []
  | _ :: rest => (splitChar '&' (List.intercalate ['?'] rest)).map (fun cs => String.mk cs)

/-- A concrete paginated list request, as in the pagination contract of
the backend collaborator. -/
def productsListReq : InboundRequest :=
  { method := "GET", url := "/api/products?page=2", pathname := "/api/products",
    query := [("page", "2")], headers := [], body := [],
    ip := some "203.0.113.5", connectionRemoteAddress := none, socketRemoteAddress := none,
    protocol := "http" }

/-- A concrete creation request carrying a JSON body and a custom
inbound header. -/
def demoPostReq : InboundRequest :=
  { method := "POST", url := "/api/products", pathname := "/api/products",
    query := [], headers := [("content-type", "application/json"), ("x-custom", "foo")],
    body := [("name", .str "Widget"), ("price", .num 9)],
    ip := some "203.0.113.5", connectionRemoteAddress := none, socketRemoteAddress := none,
    protocol := "http" }

/-- A concrete POST whose parsed JSON body is the empty object. -/
def emptyPostReq : InboundRequest :=
  { method := "POST", url := "/api/products", pathname := "/api/products", query := [],
    headers := [("content-type", "application/json")], body := [],
    ip := some "203.0.113.5", connectionRemoteAddress := none, socketRemoteAddress := none,
    protocol := "http" }

/-- A concrete health probe. -/
def healthReq : InboundRequest :=
  { method := "GET", url := "/health", pathname := "/health", query := [], headers := [],
    body := [], ip := some "203.0.113.5", connectionRemoteAddress := none,
    socketRemoteAddress := none, protocol := "http" }

/-- Modelled from axios (external collaborator): a body larger than the
configured maxContentLength rejects the call with an error whose code
is ERR_BAD_RESPONSE and which carries no response object (the response
stream is destroyed before completion); older axios releases raise the
same rejection with no code at all.  Both shapes reach the same branch
of the catch block. -/
def sizeExceededErr : CaughtError :=
  { isAxiosError := true, code := some "ERR_BAD_RESPONSE", response := none,
    message := "maxContentLength size of 52428800 exceeded" }

/-- A concrete timeout rejection: axios aborts a call that exceeds the
configured timeout with code ECONNABORTED. -/
def timeoutErr : CaughtError :=
  { isAxiosError := true, code := some "ECONNABORTED", response := none,
    message := "timeout of 30000ms exceeded" }

/-- A concrete backend response with one extra header beyond the relay
allow-list. -/
def demoBackendResp : BackendResponse :=
  { status := 200,
    headers := [("content-type", "application/json"), ("content-length", "42"),
                ("x-powered-by", "Express")],
    data := .obj [] }

/-- The catch block always writes a response when nothing was sent yet. -/
theorem handleError_false_isSome (e : CaughtError) :
    (handleError e false).isSome = true := by
  unfold handleError
  by_cases hax : e.isAxiosError
  · simp only [hax, if_true]
    by_cases h1 : e.code = some "ECONNREFUSED"
    · simp [h1]
    · by_cases h2 : e.code = some "ETIMEDOUT" ∨ e.code = some "ECONNABORTED"
      · simp [h1, h2]
      · cases hr : e.response <;> simp [h1, h2, hr]
  · simp [hax]

/-- A value found in a header list all of whose values are non-empty is
non-empty. -/
theorem lookupHeader_ne_empty (k : String) (hs : List (String × String))
    (hnz : ∀ p ∈ hs, p.2 ≠ "") (v : String) (h : lookupHeader k hs = some v) :
    v ≠ "" := by
  unfold lookupHeader at h
  obtain ⟨pr, hfind, hv⟩ := Option.map_eq_some'.mp h
  exact hv ▸ hnz pr (List.mem_of_find?_eq_some hfind)

/-- A list is a prefix of itself followed by anything. -/
theorem isPrefixOf_append (l1 l2 : List Char) :
    List.isPrefixOf l1 (l1 ++ l2) = true := by
  induction l1 with
  | nil => simp [List.isPrefixOf]
  | cons a l ih => simp [List.isPrefixOf, ih]

/-- C1: every failed outbound call is classified by the first matching
condition in source order: an axios error with code ECONNREFUSED gets
the 503 body carrying an error field; otherwise codes ETIMEDOUT or
ECONNABORTED get the 504 body carrying an error field; otherwise an
attached upstream response is relayed with its own status and data;
any remaining failure gets 502 — and the handler writes exactly one
response per failure. -/
theorem claim1_failure_classification (e : CaughtError) :
    (handleError e false).isSome = true ∧
    (e.isAxiosError = true → e.code = some "ECONNREFUSED" →
      handleError e false = some resp503) ∧
    (e.isAxiosError = true → e.code ≠ some "ECONNREFUSED" →
      (e.code = some "ETIMEDOUT" ∨ e.code = some "ECONNABORTED") →
      handleError e false = some resp504) ∧
    (∀ r, e.isAxiosError = true → e.code ≠ some "ECONNREFUSED" →
      ¬(e.code = some "ETIMEDOUT" ∨ e.code = some "ECONNABORTED") →
      e.response = some r → handleError e false = some (relayResponse r)) ∧
    (e.isAxiosError = true → e.code ≠ some "ECONNREFUSED" →
      ¬(e.code = some "ETIMEDOUT" ∨ e.code = some "ECONNABORTED") →
      e.response = none → handleError e false = some resp502) ∧
    (e.isAxiosError = false → handleError e false = some resp502) ∧
    resp503.status = 503 ∧ (unavailableBody.lookupField "error").isSome = true ∧
    resp504.status = 504 ∧ (timeoutBody.lookupField "error").isSome = true ∧
    resp502.status = 502 ∧ (badGatewayBody.lookupField "error").isSome = true := by
  refine ⟨handleError_false_isSome e, ?_, ?_, ?_, ?_, ?_, rfl, rfl, rfl, rfl, rfl, rfl⟩
  · intro hax h1
    simp [handleError, hax, h1]
  · intro hax h1 h2
    unfold handleError
    rw [if_pos hax, if_neg h1, if_pos h2]
  · intro r hax h1 h2 hr
    unfold handleError
    rw [if_pos hax, if_neg h1, if_neg h2, hr]
  · intro hax h1 h2 hr
    unfold handleError
    rw [if_pos hax, if_neg h1, if_neg h2, hr]
    simp
  · intro hax
    simp [handleError, hax]

/-- C1 witness: the classification applied to a concrete
connection-refused failure. -/
theorem claim1_witness :
    handleError ⟨true, some "ECONNREFUSED", none, "connect ECONNREFUSED"⟩ false
      = some resp503 :=
  (claim1_failure_classification ⟨true, some "ECONNREFUSED", none, "connect ECONNREFUSED"⟩).2.1
    rfl rfl

/-- C2: when the backend answers with status S and body B, the client
receives status S — no backend status is converted to 502, and indeed
the outbound call is configured to accept every status as a valid
outcome — and B re-encoded as JSON by res.json, not streamed as raw
bytes. -/
theorem claim2_status_and_body_passthrough (req : InboundRequest) (r : BackendResponse)
    (now : String) (hroute : route req.method req.pathname = RouteTarget.proxy) :
    handleRequest req (.success r) now = [successResponse r] ∧
    (successResponse r).status = r.status ∧
    (successResponse r).body = ClientBody.jsonEncoded r.data ∧
    (∀ s, (axiosConfig req).validateStatus s = true) := by
  refine ⟨?_, rfl, rfl, fun s => rfl⟩
  unfold handleRequest
  rw [hroute]
  rfl

/-- C2 witness: a 404 backend answer to a concrete request is relayed
as 404 with its body JSON-re-encoded. -/
theorem claim2_witness :
    handleRequest productsListReq
        (.success ⟨404, [], Json.obj [("error", Json.str "Not found")]⟩) "t"
      = [successResponse ⟨404, [], Json.obj [("error", Json.str "Not found")]⟩] := by
  exact (claim2_status_and_body_passthrough productsListReq
    ⟨404, [], Json.obj [("error", Json.str "Not found")]⟩ "t" (by decide)).1

/-- C3: the outbound header names are exactly X-Forwarded-For and
X-Forwarded-Proto, plus Content-Type exactly when the parsed body is
non-empty, valued as the inbound content type or application/json when
absent; any other name — in particular an arbitrary custom inbound
header — never appears in the outbound call. -/
theorem claim3_outbound_header_allowlist (req : InboundRequest) (a : String)
    (ha : clientAddr req = some a) :
    ((outboundHeaders req).map Prod.fst =
      (if req.body.isEmpty then [] else ["Content-Type"]) ++
        ["X-Forwarded-For", "X-Forwarded-Proto"]) ∧
    (¬req.body.isEmpty →
      lookupHeader "Content-Type" (outboundHeaders req)
        = some (jsOrStr (lookupHeader "content-type" req.headers) "application/json")) ∧
    (req.body.isEmpty → lookupHeader "Content-Type" (outboundHeaders req) = none) ∧
    lookupHeader "X-Forwarded-For" (outboundHeaders req) = some a ∧
    lookupHeader "X-Forwarded-Proto" (outboundHeaders req) = some req.protocol ∧
    (∀ k, k ≠ "Content-Type" → k ≠ "X-Forwarded-For" → k ≠ "X-Forwarded-Proto" →
      lookupHeader k (outboundHeaders req) = none) := by
  by_cases hb : req.body.isEmpty
  · refine ⟨?_, ?_, ?_, ?_, ?_, ?_⟩
    · simp [outboundHeaders, contentTypeOut, ha, hb]
    · intro h; exact absurd hb h
    · intro _; simp [outboundHeaders, contentTypeOut, ha, hb, lookupHeader]
    · simp [outboundHeaders, contentTypeOut, ha, hb, lookupHeader]
    · simp [outboundHeaders, contentTypeOut, ha, hb, lookupHeader]
    · intro k hk1 hk2 hk3
      simp [outboundHeaders, contentTypeOut, ha, hb, lookupHeader,
        Ne.symm hk1, Ne.symm hk2, Ne.symm hk3]
  · refine ⟨?_, ?_, ?_, ?_, ?_, ?_⟩
    · simp [outboundHeaders, contentTypeOut, ha, hb]
    · intro _; simp [outboundHeaders, contentTypeOut, ha, hb, lookupHeader]
    · intro h; exact absurd h hb
    · simp [outboundHeaders, contentTypeOut, ha, hb, lookupHeader]
    · simp [outboundHeaders, contentTypeOut, ha, hb, lookupHeader]
    · intro k hk1 hk2 hk3
      simp [outboundHeaders, contentTypeOut, ha, hb, lookupHeader,
        Ne.symm hk1, Ne.symm hk2, Ne.symm hk3]

/-- C3 witness: for a concrete request with a custom inbound header,
the custom header is gone from the outbound call and the outbound names
are exactly the three allowed ones. -/
theorem claim3_witness :
    lookupHeader "x-custom" (outboundHeaders demoPostReq) = none ∧
    (outboundHeaders demoPostReq).map Prod.fst
      = ["Content-Type", "X-Forwarded-For", "X-Forwarded-Proto"] := by
  have ha : clientAddr demoPostReq = some "203.0.113.5" := by decide
  have h := claim3_outbound_header_allowlist demoPostReq "203.0.113.5" ha
  exact ⟨h.2.2.2.2.2 "x-custom" (by decide) (by decide) (by decide), by decide⟩

/-- C4 (amended): the outbound target URL is the backend base URL
concatenated with the unmodified original URL; a request without query
parameters is transmitted as exactly that URL, but when the original
URL embeds a query string the parsed parameters are appended to it a
second time by the parameter object, so each query parameter is
transmitted twice, not once. -/
theorem claim4_query_duplication (req : InboundRequest) :
    (axiosConfig req).url = backendUrl ++ req.url ∧
    (req.query.isEmpty → effectiveUrl (axiosConfig req) = backendUrl ++ req.url) ∧
    (¬req.query.isEmpty → hasQueryMark (backendUrl ++ req.url) = true →
      effectiveUrl (axiosConfig req)
        = backendUrl ++ req.url ++ "&" ++ serializeParams req.query) := by
  refine ⟨rfl, ?_, ?_⟩
  · intro h; simp [effectiveUrl, axiosConfig, h]
  · intro h hm; simp [effectiveUrl, axiosConfig, h, hm]

/-- C4 witness: the duplication statement applied to the concrete
request GET /api/products?page=2. -/
theorem claim4_witness :
    effectiveUrl (axiosConfig productsListReq)
      = backendUrl ++ productsListReq.url ++ "&" ++ serializeParams productsListReq.query := by
  exact (claim4_query_duplication productsListReq).2.2 (by decide) (by decide)

/-- C4 counterexample: for GET /api/products?page=2 the effective
outbound URL carries the pair page=2 twice, so the query parameter is
not transmitted exactly once. -/
theorem claim4_counterexample :
    effectiveUrl (axiosConfig productsListReq)
      = "http://backend:3847/api/products?page=2&page=2" ∧
    (queryPairsOf (effectiveUrl (axiosConfig productsListReq))).count "page=2" = 2 ∧
    ¬(queryPairsOf (effectiveUrl (axiosConfig productsListReq))).count "page=2" = 1 := by
  exact ⟨by decide, by decide, by decide⟩

/-- C5 (amended): the outbound call is bounded by a 30000 ms timeout
and 52428800-byte request and response body caps; a timed-out or
aborted call (codes ETIMEDOUT or ECONNABORTED) is answered with 504,
but a call that fails for exceeding the body-size cap is not treated as
a timeout: its rejection carries neither timeout code and falls through
to the generic 502 branch. -/
theorem claim5_bounds_and_timeout (req : InboundRequest) (e : CaughtError)
    (hax : e.isAxiosError = true) (h1 : e.code ≠ some "ECONNREFUSED")
    (h2 : e.code = some "ETIMEDOUT" ∨ e.code = some "ECONNABORTED") :
    (axiosConfig req).timeout = 30000 ∧
    (axiosConfig req).maxContentLength = 52428800 ∧
    (axiosConfig req).maxBodyLength = 52428800 ∧
    handleError e false = some resp504 ∧
    handleError sizeExceededErr false = some resp502 ∧
    resp502.status ≠ resp504.status := by
  refine ⟨rfl, rfl, rfl, ?_, rfl, by decide⟩
  unfold handleError
  rw [if_pos hax, if_neg h1, if_pos h2]

/-- C5 witness: the bounds statement applied to a concrete timeout
rejection. -/
theorem claim5_witness :
    handleError timeoutErr false = some resp504 := by
  exact (claim5_bounds_and_timeout productsListReq timeoutErr rfl (by decide)
    (Or.inr (by decide))).2.2.2.1

/-- C5 counterexample: a body-size-cap failure is answered with the 502
response, not the 504 timeout response. -/
theorem claim5_counterexample :
    handleError sizeExceededErr false = some resp502 ∧
    (handleError sizeExceededErr false).map ClientResponse.status ≠ some 504 := by
  refine ⟨rfl, by decide⟩

/-- C6: of the backend response headers, exactly content-type and
content-length are relayed to the client when the backend set them,
with the backend values; no other backend header name ever appears in
the relayed set, and a header the backend did not set is not
synthesized by the relay step. -/
theorem claim6_relay_header_allowlist (r : BackendResponse)
    (hnz : ∀ p ∈ r.headers, p.2 ≠ "") :
    lookupHeader "content-type" (successResponse r).headers
      = lookupHeader "content-type" r.headers ∧
    lookupHeader "content-length" (successResponse r).headers
      = lookupHeader "content-length" r.headers ∧
    (∀ k, k ≠ "content-type" → k ≠ "content-length" →
      lookupHeader k (successResponse r).headers = none) ∧
    (∀ p, p ∈ (successResponse r).headers →
      p.1 = "content-type" ∨ p.1 = "content-length") := by
  show lookupHeader "content-type" (relayHeaders r.headers) = _ ∧ _
  cases hct : lookupHeader "content-type" r.headers with
  | none =>
    cases hcl : lookupHeader "content-length" r.headers with
    | none =>
      have hred : relayHeaders r.headers = [] := by
        simp [relayHeaders, hct, hcl]
      refine ⟨?_, ?_, ?_, ?_⟩ <;>
        simp [successResponse, hred, lookupHeader, hct, hcl]
    | some w =>
      have hw := lookupHeader_ne_empty _ _ hnz _ hcl
      have hred : relayHeaders r.headers = [("content-length", w)] := by
        simp [relayHeaders, hct, hcl, hw]
      refine ⟨?_, ?_, ?_, ?_⟩
      · simp [successResponse, hred, lookupHeader, hct]
      · simp [successResponse, hred, lookupHeader, hcl]
      · intro k hk1 hk2
        simp [successResponse, hred, lookupHeader, Ne.symm hk2]
      · intro p hp
        simp [successResponse, hred] at hp
        simp [hp]
  | some v =>
    have hv := lookupHeader_ne_empty _ _ hnz _ hct
    cases hcl : lookupHeader "content-length" r.headers with
    | none =>
      have hred : relayHeaders r.headers = [("content-type", v)] := by
        simp [relayHeaders, hct, hcl, hv]
      refine ⟨?_, ?_, ?_, ?_⟩
      · simp [successResponse, hred, lookupHeader, hct]
      · simp [successResponse, hred, lookupHeader, hcl]
      · intro k hk1 hk2
        simp [successResponse, hred, lookupHeader, Ne.symm hk1]
      · intro p hp
        simp [successResponse, hred] at hp
        simp [hp]
    | some w =>
      have hw := lookupHeader_ne_empty _ _ hnz _ hcl
      have hred : relayHeaders r.headers = [("content-type", v), ("content-length", w)] := by
        simp [relayHeaders, hct, hcl, hv, hw]
      refine ⟨?_, ?_, ?_, ?_⟩
      · simp [successResponse, hred, lookupHeader, hct]
      · simp [successResponse, hred, lookupHeader, hcl]
      · intro k hk1 hk2
        simp [successResponse, hred, lookupHeader, Ne.symm hk1, Ne.symm hk2]
      · intro p hp
        simp [successResponse, hred] at hp
        rcases hp with hp | hp <;> simp [hp]

/-- C6 witness: for a concrete backend response, the extra backend
header is not relayed while content-type keeps its backend value. -/
theorem claim6_witness :
    lookupHeader "x-powered-by" (successResponse demoBackendResp).headers = none ∧
    lookupHeader "content-type" (successResponse demoBackendResp).headers
      = some "application/json" := by
  have h := claim6_relay_header_allowlist demoBackendResp (by decide)
  exact ⟨h.2.2.1 "x-powered-by" (by decide) (by decide), by rw [h.1]; decide⟩

/-- C7: one run of the proxy handler writes exactly one response
whatever the outcome of the try block, and when an error is raised
after the response was already sent the catch block attempts no second
write: the write list is exactly the already-sent response, because
such an error is never an axios transport error and the generic branch
is guarded by the headers-sent test. -/
theorem claim7_no_double_write (t : TryResult) :
    (proxyWrites t).length = 1 ∧
    (∀ r msg, proxyWrites (.writeFailed r msg true) = [successResponse r]) ∧
    (∀ msg, handleError (plainError msg) true = none) := by
  refine ⟨?_, ?_, ?_⟩
  · cases t with
    | success r => rfl
    | callFailed e =>
      obtain ⟨w, hw⟩ := Option.isSome_iff_exists.mp (handleError_false_isSome e)
      simp [proxyWrites, hw]
    | writeFailed r msg sent =>
      cases sent <;> simp [proxyWrites, handleError, plainError]
  · intro r msg
    simp [proxyWrites, handleError, plainError]
  · intro msg
    simp [handleError, plainError]

/-- C7 witness: a concrete post-write failure produces no second
write. -/
theorem claim7_witness :
    proxyWrites (.writeFailed ⟨200, [], Json.obj []⟩ "stringify failed" true)
      = [successResponse ⟨200, [], Json.obj []⟩] := by
  exact (claim7_no_double_write
    (.writeFailed ⟨200, [], Json.obj []⟩ "stringify failed" true)).2.1
    ⟨200, [], Json.obj []⟩ "stringify failed"

/-- C8: each synthesized failure body (the 503, 504 and 502 cases) is a
fixed JSON object with string-valued error and message fields,
independent of the caught error's internals: every error classified to
a branch gets the branch's constant body, whatever its message, its
other fields, or the headers-sent flag, so two failures in the same
branch always produce identical client-visible bodies and no internal
error detail appears. -/
theorem claim8_constant_failure_bodies (e : CaughtError) (hs : Bool) :
    (e.isAxiosError = true → e.code = some "ECONNREFUSED" →
      handleError e hs = some resp503) ∧
    (e.isAxiosError = true → e.code ≠ some "ECONNREFUSED" →
      (e.code = some "ETIMEDOUT" ∨ e.code = some "ECONNABORTED") →
      handleError e hs = some resp504) ∧
    (e.isAxiosError = false → hs = false → handleError e hs = some resp502) ∧
    (e.isAxiosError = true → e.code ≠ some "ECONNREFUSED" →
      ¬(e.code = some "ETIMEDOUT" ∨ e.code = some "ECONNABORTED") →
      e.response = none → hs = false → handleError e hs = some resp502) ∧
    resp503.body = ClientBody.jsonEncoded unavailableBody ∧
    unavailableBody.lookupField "error" = some (.str "Backend service unavailable") ∧
    unavailableBody.lookupField "message"
      = some (.str "The backend service is currently unavailable. Please try again later.") ∧
    resp504.body = ClientBody.jsonEncoded timeoutBody ∧
    timeoutBody.lookupField "error" = some (.str "Backend service timeout") ∧
    timeoutBody.lookupField "message"
      = some (.str "The backend service did not respond in time. Please try again later.") ∧
    resp502.body = ClientBody.jsonEncoded badGatewayBody ∧
    badGatewayBody.lookupField "error" = some (.str "Bad Gateway") ∧
    badGatewayBody.lookupField "message"
      = some (.str "Failed to proxy request to backend service") := by
  refine ⟨?_, ?_, ?_, ?_, rfl, rfl, rfl, rfl, rfl, rfl, rfl, rfl, rfl⟩
  · intro hax h1
    simp [handleError, hax, h1]
  · intro hax h1 h2
    unfold handleError
    rw [if_pos hax, if_neg h1, if_pos h2]
  · intro hax hhs
    simp [handleError, hax, hhs]
  · intro hax h1 h2 hr hhs
    unfold handleError
    rw [if_pos hax, if_neg h1, if_neg h2, hr, hhs]
    simp

/-- C8 witness: two connection-refused failures with different internal
messages and different headers-sent flags produce the same response. -/
theorem claim8_witness :
    handleError ⟨true, some "ECONNREFUSED", none, "connect ECONNREFUSED 10.0.0.7:3847"⟩ false
      = handleError ⟨true, some "ECONNREFUSED", none, "some other internal detail"⟩ true := by
  rw [(claim8_constant_failure_bodies
        ⟨true, some "ECONNREFUSED", none, "connect ECONNREFUSED 10.0.0.7:3847"⟩ false).1 rfl rfl,
      (claim8_constant_failure_bodies
        ⟨true, some "ECONNREFUSED", none, "some other internal detail"⟩ true).1 rfl rfl]

/-- C9: a GET on the health path is answered 200 with the static
payload carrying status ok, the timestamp and the service name, and the
answer does not depend on the outcome of any outbound call, so it is
unchanged when the backend is down. -/
theorem claim9_health_endpoint (req : InboundRequest) (t t2 : TryResult) (now : String)
    (hm : req.method = "GET") (hp : req.pathname = "/health") :
    handleRequest req t now = [healthResponse now] ∧
    handleRequest req t now = handleRequest req t2 now ∧
    (healthResponse now).status = 200 ∧
    (healthBody now).lookupField "status" = some (.str "ok") ∧
    (healthBody now).lookupField "timestamp" = some (.str now) ∧
    (healthBody now).lookupField "service" = some (.str "gateway") := by
  have hr : route req.method req.pathname = RouteTarget.health := by
    rw [hm, hp]; decide
  have hmain : handleRequest req t now = [healthResponse now] := by
    unfold handleRequest
    rw [hr]
  have hmain2 : handleRequest req t2 now = [healthResponse now] := by
    unfold handleRequest
    rw [hr]
  refine ⟨hmain, hmain.trans hmain2.symm, rfl, rfl, rfl, rfl⟩

/-- C9 witness: the health answer of a concrete probe while the
outbound call reports the backend unreachable. -/
theorem claim9_witness :
    handleRequest healthReq
        (.callFailed ⟨true, some "ECONNREFUSED", none, "backend down"⟩)
        "2026-10-11T00:00:00.000Z"
      = [healthResponse "2026-10-11T00:00:00.000Z"] := by
  exact (claim9_health_endpoint healthReq
    (.callFailed ⟨true, some "ECONNREFUSED", none, "backend down"⟩)
    (.success ⟨200, [], Json.obj []⟩) "2026-10-11T00:00:00.000Z" rfl rfl).1

/-- C10 (amended): the exact path /api does not match the proxy route
and falls through to the default handler, while every path that begins
with /api/ is dispatched to the proxy forwarder — including /api/
itself, whose remainder after the pattern is empty — and an inbound
request whose parsed JSON body is the empty object is forwarded with no
Content-Type header. -/
theorem claim10_route_and_empty_body (req : InboundRequest) (m s : String)
    (hb : req.body = []) :
    route "GET" "/api" = RouteTarget.notFound ∧
    route m ("/api/" ++ s) = RouteTarget.proxy ∧
    lookupHeader "Content-Type" (outboundHeaders req) = none := by
  refine ⟨by decide, ?_, ?_⟩
  · have hdata : ("/api/" ++ s).data = "/api/".data ++ s.data := by
      simp [String.data_append]
    have hlow : List.map Char.toLower "/api/".data = "/api/".data := by decide
    have hmatch : apiRouteMatches ("/api/" ++ s) = true := by
      unfold apiRouteMatches
      rw [hdata, List.map_append, hlow]
      exact isPrefixOf_append _ _
    simp [route, hmatch]
  · cases ha : clientAddr req <;>
      simp [outboundHeaders, contentTypeOut, hb, ha, lookupHeader]

/-- C10 witness: the amended statement applied to a concrete empty-body
POST and path. -/
theorem claim10_witness :
    route "POST" ("/api/" ++ "products") = RouteTarget.proxy ∧
    lookupHeader "Content-Type" (outboundHeaders emptyPostReq) = none := by
  have h := claim10_route_and_empty_body emptyPostReq "POST" "products" rfl
  exact ⟨h.2.1, h.2.2⟩

/-- C10 counterexample: the path /api/ has no character after the /api/
pattern — its whole length is five — yet it matches the proxy route and
is dispatched to the forwarder. -/
theorem claim10_counterexample :
    route "GET" "/api/" = RouteTarget.proxy ∧ "/api/".length = 5 := by
  exact ⟨by decide, by decide⟩

end Gateway
